import Mathlib

/-!
Shallow embedding of the `get-followings` gateway route
(`src/app/api/get-followings/route.ts`, the current variant: the
`fetchFromExternalApi` helper plus the exported `GET` handler).

JSON values are modelled by the inductive `JVal`; a missing property
(JavaScript `undefined`) is modelled as `Option.none`, so `Option JVal`
stands for a JavaScript value that may be `undefined`.  Truthiness follows
JavaScript: `null`, `false`, `0`, `""` and `undefined` are falsy, every
array and object (including the empty ones) is truthy.

Property access on a `null` base throws a `TypeError` in JavaScript.  The
route reaches such an access at exactly two places, neither of which is
guarded against a null base: `parsedData.errors[0].message` in the error
classifier (line 57 — the guards cover the array, not its first element)
and `user.screen_name` in the per-entry handle extraction (line 145).
Both sites run inside the handler's `try` block, whose `catch` converts
the exception into an HTTP 503 response.  The embedding models this with
`Except JsError`: the classifier, the extraction, and therefore
`fetchFromExternalApi` return `Except JsError _`, and `GET` maps a thrown
error to the 503 catch response.  The text of a `TypeError` message is
engine-specific; the model uses a fixed V8-style string and nothing proved
here depends on it.  All other property accesses in the route are guarded
by a truthiness test on the base or use optional chaining, so they are
embedded with the total accessor `getField`.

The upstream HTTP exchange is modelled by `UpstreamResponse`: a status, a
status text, and the body as observed after `response.text()` followed by
an attempted `JSON.parse` — either the empty string (parse is skipped and
`parsedData` stays `null`), a non-empty text that fails to parse, or a
successfully parsed `JVal`.  Network-level faults of `fetch` itself are
outside this model: the oracle always yields a response.
-/

inductive JVal where
  | jnull
  | jbool (b : Bool)
  | jnum (n : Int)
  | jstr (s : String)
  | jarr (elems : List JVal)
  | jobj (fields : List (String × JVal))

/-- JavaScript truthiness of a defined value. -/
def JVal.truthy : JVal → Bool
  | .jnull => false
  | .jbool b => b
  | .jnum n => n != 0
  | .jstr s => s != ""
  | .jarr _ => true
  | .jobj _ => true

/-- Truthiness of a possibly-`undefined` value. -/
def truthyO : Option JVal → Bool
  | none => false
  | some v => v.truthy

/-- Property access `v.k` at a site where the base cannot be `null`
(guarded by a truthiness test or reached through optional chaining):
defined only on objects, `undefined` otherwise — property access on a
non-null primitive yields `undefined` in JavaScript.  The two unguarded
sites of the route, where a null base throws, are modelled separately
(`errorsFirstMessage`, `handleProbe`). -/
def getField : JVal → String → Option JVal
  | .jobj fs, k => fs.lookup k
  | _, _ => none

/-- Optional-chained access `v?.a?.b`. -/
def getField2 (v : JVal) (a b : String) : Option JVal :=
  (getField v a).bind (fun w => getField w b)

/-- JavaScript `a || b` on possibly-`undefined` values. -/
def jsOr (a b : Option JVal) : Option JVal :=
  if truthyO a then a else b

/-- JavaScript `a || d` where `d` is a defined default. -/
def jsOrD (a : Option JVal) (d : JVal) : JVal :=
  if truthyO a then a.getD .jnull else d

/-- Embedding of `typeof x === \x27string\x27 && x`: the value when it is a
non-empty string, `none` otherwise. -/
def strIfNonEmpty : Option JVal → Option String
  | some (.jstr s) => if s = "" then none else some s
  | _ => none

/-- Embedding of `Array.isArray(x)`, returning the array it holds. -/
def getArr : Option JVal → Option (List JVal)
  | some (.jarr xs) => some xs
  | _ => none

/-- Embedding of `response.ok`: status in the 2xx range. -/
def responseOk (s : Nat) : Bool := 200 ≤ s && s < 300

/-- A thrown JavaScript exception as observed by the handler's `catch`:
its `name` and `message` fields. -/
structure JsError where
  name : String
  message : String

/-- The `TypeError` raised by reading property `k` of `null` (V8-style
message text; nothing proved here depends on it). -/
def nullAccessError (k : String) : JsError :=
  { name := "TypeError",
    message := "Cannot read properties of null (reading \x27" ++ k ++ "\x27)" }

/-- The `errors[0].message` probe of the error classifier (route.ts line
57): `Array.isArray(parsedData.errors) && parsedData.errors.length > 0 &&
typeof parsedData.errors[0].message === \x27string\x27 &&
parsedData.errors[0].message`.  The guards cover the array and its length,
not its first element: when `errors[0]` is `null`, reading `.message`
throws a `TypeError`. -/
def errorsFirstMessage (v : JVal) : Except JsError (Option String) :=
  match getField v "errors" with
  | some (.jarr (e :: _)) =>
    match e with
    | .jnull => .error (nullAccessError "message")
    | _ => .ok (strIfNonEmpty (getField e "message"))
  | _ => .ok none

/-- The error-message cascade of `fetchFromExternalApi` (route.ts lines
51–60): start from `response.statusText || External API Error <status>`,
then, when `parsedData` is truthy, overwrite with the first non-empty
string among `message`, `error`, `error_message`, `errors[0].message`,
`title`, `detail`.  The `errors[0].message` probe is reached only when the
first three probes miss, and can throw. -/
def externalErrorMessage (parsedData : JVal) (statusText : String) (status : Nat) :
    Except JsError String :=
  let fallback := if statusText = "" then "External API Error " ++ toString status else statusText
  if parsedData.truthy then
    match strIfNonEmpty (getField parsedData "message") with
    | some m => .ok m
    | none =>
      match strIfNonEmpty (getField parsedData "error") with
      | some m => .ok m
      | none =>
        match strIfNonEmpty (getField parsedData "error_message") with
        | some m => .ok m
        | none =>
          match errorsFirstMessage parsedData with
          | .error e => .error e
          | .ok (some m) => .ok m
          | .ok none =>
            match strIfNonEmpty (getField parsedData "title") with
            | some m => .ok m
            | none =>
              match strIfNonEmpty (getField parsedData "detail") with
              | some m => .ok m
              | none => .ok fallback
  else .ok fallback

/-- The body of an upstream HTTP response, as seen after `response.text()`
and the attempted `JSON.parse`. `empty` is the empty text (parse skipped,
`parsedData = null`); `nonJson t` is a non-empty text `t` on which
`JSON.parse` throws; `json v` is a text parsing to `v`. -/
inductive Body where
  | empty
  | nonJson (text : String)
  | json (v : JVal)

structure UpstreamResponse where
  status : Nat
  statusText : String
  body : Body

/-- The value returned by `fetchFromExternalApi` when it returns (rather
than throws). `json` is the `json` field of the returned record (`null` is
`JVal.jnull`). -/
structure CallResult where
  ok : Bool
  status : Nat
  json : JVal

/-- The `json` payload built when a 2xx response body fails to parse
(route.ts lines 40–47). -/
def invalidSuccessJson (t : String) : JVal :=
  .jobj [("error", .jstr "Bad Gateway: Upstream API sent an invalid success response."),
         ("details", .jobj [("message", .jstr "The external API returned a success status, but its response body was not valid JSON."),
                            ("bodyPreview", .jstr (t.take 500))])]

/-- Embedding of `fetchFromExternalApi` (route.ts lines 4–73), as a function
of the upstream response it observes.  A `TypeError` thrown by the error
classifier propagates to the caller as `Except.error`. -/
def fetchFromExternalApi (r : UpstreamResponse) : Except JsError CallResult :=
  match r.body with
  | .empty =>
    -- responseBodyText is empty: parsedData = null, no parse attempted
    if responseOk r.status then
      .ok { ok := true, status := r.status, json := .jnull }
    else
      -- parsedData is null, so the classifier skips all probes
      match externalErrorMessage .jnull r.statusText r.status with
      | .error e => .error e
      | .ok m =>
        .ok { ok := false, status := r.status,
              json := .jobj [("error", .jstr m), ("details", .jnull)] }
  | .nonJson t =>
    -- JSON.parse threw; the classifier block is never reached
    if responseOk r.status then
      .ok { ok := false, status := 502, json := invalidSuccessJson t }
    else
      let errorMsg := if t.length < 200 then t else r.statusText
      .ok { ok := false, status := r.status,
            json := .jobj [("error", .jstr ("External API error (" ++ toString r.status ++ "): " ++ errorMsg)),
                           ("details", .jobj [("message", .jstr ("The external API returned status " ++ r.statusText ++ " but the response body could not be parsed as JSON.")),
                                              ("bodyPreview", .jstr (t.take 500))])] }
  | .json v =>
    if responseOk r.status then
      .ok { ok := true, status := r.status, json := v }
    else
      match externalErrorMessage v r.statusText r.status with
      | .error e => .error e
      | .ok m =>
        .ok { ok := false, status := r.status,
              json := .jobj [("error", .jstr m), ("details", v)] }

/-- The user-id probe of step 1 (route.ts line 112):
`lookupData?.data?.id_str || lookupData?.id_str || lookupData?.data?.id || lookupData?.id`
— optional-chained throughout, hence total. -/
def probeUserId (d : JVal) : Option JVal :=
  jsOr (jsOr (jsOr (getField2 d "data" "id_str") (getField d "id_str"))
             (getField2 d "data" "id"))
       (getField d "id")

/-- The relation-array probe of step 2 (route.ts lines 136–142):
`if (followingsData && Array.isArray(followingsData.data)) … else if
(followingsData && Array.isArray(followingsData.users)) … else if
(Array.isArray(followingsData)) …` — the base is truthiness-guarded,
hence total. -/
def findUsersArray (d : JVal) : Option (List JVal) :=
  if d.truthy && (getArr (getField d "data")).isSome then
    getArr (getField d "data")
  else if d.truthy && (getArr (getField d "users")).isSome then
    getArr (getField d "users")
  else
    getArr (some d)

/-- The value of `user.screen_name || user.username` when `user` is not
`null`. -/
def probedName (u : JVal) : Option JVal :=
  jsOr (getField u "screen_name") (getField u "username")

/-- The per-entry handle probe (route.ts line 145):
`user.screen_name || user.username`.  A `null` entry throws a `TypeError`
at the `screen_name` read. -/
def handleProbe : JVal → Except JsError (Option JVal)
  | .jnull => .error (nullAccessError "screen_name")
  | u => .ok (probedName u)

/-- Embedding of `usersArray.map(user => user.screen_name || user.username)`:
JavaScript evaluates the callback left to right and the first throw aborts
the whole `map`. -/
def mapHandleProbe : List JVal → Except JsError (List (Option JVal))
  | [] => .ok []
  | u :: rest =>
    match handleProbe u with
    | .error e => .error e
    | .ok h =>
      match mapHandleProbe rest with
      | .error e => .error e
      | .ok hs => .ok (h :: hs)

/-- Embedding of
`usersArray.map(user => user.screen_name || user.username).filter(Boolean)`
(route.ts line 145); `filter` runs only when `map` completed. -/
def extractedUsernames (xs : List JVal) : Except JsError (List JVal) :=
  match mapHandleProbe xs with
  | .error e => .error e
  | .ok l => .ok ((l.filter truthyO).filterMap id)

/-- Error body `{ error, details }`; an `undefined` details value is
omitted from the serialized JSON, a present one (including `null`) is kept. -/
def mkErrBody (msg : JVal) (details : Option JVal) : JVal :=
  match details with
  | some d => .jobj [("error", msg), ("details", d)]
  | none => .jobj [("error", msg)]

/-- Response body of the 500 missing-credential branch (route.ts lines 87–93). -/
def configErrorBody : JVal :=
  .jobj [("error", .jstr "API Key Not Configured"),
         ("details", .jobj [("title", .jstr "Server Configuration Error"),
                            ("message", .jstr "The SOCIALDATA_API_KEY is missing from the server\x27s environment variables. Please ensure it is set correctly for the application to authenticate with the external service.")])]

/-- Response body of the 502 missing-user-id branch (route.ts lines 116–119). -/
def idMissingBody (lookupData : JVal) : JVal :=
  .jobj [("error", .jstr "Bad Gateway: User ID not found in the lookup response from the external API."),
         ("details", .jobj [("message", .jstr "The external API returned a successful user lookup, but the user ID was missing or in an unexpected format."),
                            ("receivedData", lookupData)])]

/-- Response body of the 502 unexpected-structure branch (route.ts lines 161–164). -/
def shapeErrorBody (followingsData : JVal) : JVal :=
  .jobj [("error", .jstr "Bad Gateway: Upstream API response for followings list has unexpected structure."),
         ("details", .jobj [("message", .jstr "The list of followings could not be extracted due to an unexpected data format from the external service."),
                            ("receivedData", followingsData)])]

structure GatewayResponse where
  status : Nat
  body : JVal

/-- The 503 response built by the outer `catch` (route.ts lines 167–173)
from a thrown exception. -/
def catchResponse (e : JsError) : GatewayResponse :=
  { status := 503,
    body := .jobj [("error", .jstr "Service Unavailable: Internal server error while processing request."),
                   ("details", .jobj [("message", .jstr (if e.message = "" then "Internal server error while processing request." else e.message)),
                                      ("type", .jstr (if e.name = "" then "Error" else e.name))])] }

/-- The 404 / passthrough handling of a failed identity lookup
(route.ts lines 103–109). -/
def handleLookupFailure (username : String) (lr : CallResult) : GatewayResponse :=
  let message := jsOrD (getField lr.json "error") (.jstr "Failed to look up user.")
  if lr.status = 404 then
    { status := 404,
      body := mkErrBody (.jstr ("User \"" ++ username ++ "\" not found.")) (getField lr.json "details") }
  else
    { status := lr.status, body := mkErrBody message (getField lr.json "details") }

/-- Handling of the relation-fetch result (route.ts lines 128–165).  The
per-entry extraction can throw on a `null` array entry. -/
def handleFollowings (fr : CallResult) : Except JsError GatewayResponse :=
  if fr.ok = false then
    .ok { status := fr.status,
          body := mkErrBody (jsOrD (getField fr.json "error") (.jstr "Failed to fetch followings list."))
                            (getField fr.json "details") }
  else
    match findUsersArray fr.json with
    | some usersArray =>
      match extractedUsernames usersArray with
      | .error e => .error e
      | .ok handles => .ok { status := 200, body := .jobj [("followings", .jarr handles)] }
    | none => .ok { status := 502, body := shapeErrorBody fr.json }

/-- The request as the handler sees it: the `username` query parameter
(`none` when absent) and the `SOCIALDATA_API_KEY` environment variable
(`none` when unset). -/
structure GetRequest where
  username : Option String
  apiKey : Option String

/-- The upstream oracle: the response the identity-lookup call would
observe, and the response the relation-fetch call would observe. -/
structure Upstream where
  lookup : UpstreamResponse
  relations : UpstreamResponse

/-- The gateway response together with which upstream calls were issued. -/
structure GetOutcome where
  response : GatewayResponse
  lookupCalled : Bool
  relationsCalled : Bool

/-- Truthiness of a nullable string: false for `null` and for the empty
string, as tested by `!username` and `!apiKey`. -/
def truthyStr : Option String → Bool
  | none => false
  | some s => s != ""

/-- Step 2 of the pipeline (route.ts lines 123–165): issue the relation
fetch and handle its result; a throw in either is caught by the outer
`catch` and answered 503. -/
def relationStep (rel : UpstreamResponse) : GetOutcome :=
  match fetchFromExternalApi rel with
  | .error e =>
    { response := catchResponse e, lookupCalled := true, relationsCalled := true }
  | .ok followingsResponse =>
    match handleFollowings followingsResponse with
    | .ok resp => { response := resp, lookupCalled := true, relationsCalled := true }
    | .error e => { response := catchResponse e, lookupCalled := true, relationsCalled := true }

/-- Embedding of the exported `GET` handler (route.ts lines 75–174), as a
function of the request and the upstream oracle.  A throw anywhere inside
the `try` block becomes the 503 catch response; the calls issued before
the throw are still recorded. -/
def GET (req : GetRequest) (up : Upstream) : GetOutcome :=
  if truthyStr req.username = false then
    { response := { status := 400, body := .jobj [("error", .jstr "Username is required")] },
      lookupCalled := false, relationsCalled := false }
  else if truthyStr req.apiKey = false then
    { response := { status := 500, body := configErrorBody },
      lookupCalled := false, relationsCalled := false }
  else
    let username := req.username.getD ""
    match fetchFromExternalApi up.lookup with
    | .error e =>
      { response := catchResponse e, lookupCalled := true, relationsCalled := false }
    | .ok lookupResponse =>
      if lookupResponse.ok = false then
        { response := handleLookupFailure username lookupResponse,
          lookupCalled := true, relationsCalled := false }
      else if truthyO (probeUserId lookupResponse.json) = false then
        { response := { status := 502, body := idMissingBody lookupResponse.json },
          lookupCalled := true, relationsCalled := false }
      else
        relationStep up.relations

/-- First defined element of a list of optional strings. -/
def firstSomeStr : List (Option String) → Option String
  | [] => none
  | some s :: _ => some s
  | none :: rest => firstSomeStr rest

/-- Modelled from the spec (claim C8 wording): the canonical error message
obtained by probing, in this fixed priority order and taking the first
non-empty string: `message`, `error.message` (if `error` is an object),
`error` (if a string), `error_message`, `errors[0].message`, `title`,
`detail`; falling back to the HTTP status text or the generic
`External API Error <status>`.  The claim describes every probe as a
plain field lookup, so this definition is total. -/
def specErrorMessage (v : JVal) (statusText : String) (status : Nat) : String :=
  (firstSomeStr
    [ strIfNonEmpty (getField v "message"),
      strIfNonEmpty (getField2 v "error" "message"),
      strIfNonEmpty (getField v "error"),
      strIfNonEmpty (getField v "error_message"),
      (errorsFirstMessage v).toOption.join,
      strIfNonEmpty (getField v "title"),
      strIfNonEmpty (getField v "detail") ]).getD
  (if statusText = "" then "External API Error " ++ toString status else statusText)

/-- First element of a list of fallible optional strings: a throw aborts
the cascade, a defined string wins, `none` falls through. -/
def firstSomeStrE : List (Except JsError (Option String)) → Except JsError (Option String)
  | [] => .ok none
  | .error e :: _ => .error e
  | .ok (some s) :: _ => .ok (some s)
  | .ok none :: rest => firstSomeStrE rest

/-- The amended error-message contract: as the claim but without the
`error.message` probe, which the code does not perform, and with the
`errors[0].message` probe able to throw on a null `errors[0]`. -/
def amendedErrorProbe (v : JVal) (statusText : String) (status : Nat) :
    Except JsError String :=
  match firstSomeStrE
    [ .ok (strIfNonEmpty (getField v "message")),
      .ok (strIfNonEmpty (getField v "error")),
      .ok (strIfNonEmpty (getField v "error_message")),
      errorsFirstMessage v,
      .ok (strIfNonEmpty (getField v "title")),
      .ok (strIfNonEmpty (getField v "detail")) ] with
  | .error e => .error e
  | .ok (some m) => .ok m
  | .ok none => .ok (if statusText = "" then "External API Error " ++ toString status else statusText)

/-- Modelled from the spec (claim C2 wording): locate the relation array by
probing, first match winning: (1) the payload is itself an array;
(2) `payload.data`; (3) `payload.users`; (4) `payload.data.users`. -/
def specShapeProbe (d : JVal) : Option (List JVal) :=
  match d with
  | .jarr xs => some xs
  | _ =>
    match getArr (getField d "data") with
    | some xs => some xs
    | none =>
      match getArr (getField d "users") with
      | some xs => some xs
      | none => getArr (getField2 d "data" "users")

/-- The amended shape contract: as `specShapeProbe` but without the fourth
probe (`payload.data.users`), which the code does not perform. -/
def amendedShapeProbe (d : JVal) : Option (List JVal) :=
  match d with
  | .jarr xs => some xs
  | _ =>
    match getArr (getField d "data") with
    | some xs => some xs
    | none => getArr (getField d "users")

/-- Modelled from the amended claim C9, for non-null entries: probe
`screen_name` then `username`, keep the probed value exactly when it is
truthy (whatever its type). -/
def keptHandle (u : JVal) : Option JVal :=
  if truthyO (probedName u) then probedName u else none

/-- A response body that is empty or fails to parse. -/
def unusableBody : Body → Bool
  | .empty => true
  | .nonJson _ => true
  | .json _ => false

def badSuccess (r : UpstreamResponse) : Bool :=
  responseOk r.status && unusableBody r.body

-- Helper lemmas -------------------------------------------------------

theorem truthyO_jsOr (a b : Option JVal) :
    truthyO (jsOr a b) = (truthyO a || truthyO b) := by
  unfold jsOr
  cases h : truthyO a <;> simp [h]

theorem truthyO_probedName (u : JVal) :
    truthyO (probedName u)
      = (truthyO (getField u "screen_name") || truthyO (getField u "username")) := by
  unfold probedName
  exact truthyO_jsOr _ _

theorem handleProbe_ne_null (a : JVal) (h : a ≠ .jnull) :
    handleProbe a = .ok (probedName a) := by
  cases a with
  | jnull => exact absurd rfl h
  | jbool b => rfl
  | jnum n => rfl
  | jstr s => rfl
  | jarr l => rfl
  | jobj fs => rfl

theorem mapHandleProbe_ok_of_nonnull (xs : List JVal)
    (h : ∀ e ∈ xs, e ≠ JVal.jnull) :
    mapHandleProbe xs = .ok (xs.map probedName) := by
  induction xs with
  | nil => rfl
  | cons a rest ih =>
    have ha := handleProbe_ne_null a (h a (List.mem_cons_self a rest))
    have hrest := ih (fun e he => h e (List.mem_cons_of_mem a he))
    simp [mapHandleProbe, ha, hrest]

theorem mapHandleProbe_error_of_mem (xs : List JVal) (h : JVal.jnull ∈ xs) :
    mapHandleProbe xs = .error (nullAccessError "screen_name") := by
  induction xs with
  | nil => exact absurd h (List.not_mem_nil _)
  | cons a rest ih =>
    by_cases ha : a = JVal.jnull
    · subst ha
      simp [mapHandleProbe, handleProbe]
    · have hmem : JVal.jnull ∈ rest := by
        rcases List.mem_cons.mp h with h1 | h1
        · exact absurd h1.symm ha
        · exact h1
      simp [mapHandleProbe, handleProbe_ne_null a ha, ih hmem]

theorem mapHandleProbe_length (xs : List JVal) (hs : List (Option JVal))
    (h : mapHandleProbe xs = .ok hs) : hs.length = xs.length := by
  induction xs generalizing hs with
  | nil =>
    simp only [mapHandleProbe] at h
    cases h
    rfl
  | cons a rest ih =>
    rcases hp : handleProbe a with e | v
    · simp [mapHandleProbe, hp] at h
    · rcases hr : mapHandleProbe rest with e | hs'
      · simp [mapHandleProbe, hp, hr] at h
      · simp only [mapHandleProbe, hp, hr] at h
        cases h
        simp [ih hs' hr]

theorem fetch_ok_not2xx (r : UpstreamResponse) (lr : CallResult)
    (h : responseOk r.status = false)
    (hf : fetchFromExternalApi r = .ok lr) :
    lr.ok = false ∧ lr.status = r.status := by
  obtain ⟨s, st, b⟩ := r
  simp only at h
  cases b with
  | empty =>
    simp only [fetchFromExternalApi, h, Bool.false_eq_true, if_false] at hf
    rcases hm : externalErrorMessage JVal.jnull st s with e | m
    · rw [hm] at hf; cases hf
    · rw [hm] at hf
      cases hf
      exact ⟨rfl, rfl⟩
  | nonJson t =>
    simp only [fetchFromExternalApi, h, Bool.false_eq_true, if_false] at hf
    cases hf
    exact ⟨rfl, rfl⟩
  | json v =>
    simp only [fetchFromExternalApi, h, Bool.false_eq_true, if_false] at hf
    rcases hm : externalErrorMessage v st s with e | m
    · rw [hm] at hf; cases hf
    · rw [hm] at hf
      cases hf
      exact ⟨rfl, rfl⟩

theorem fetch_ok_empty (r : UpstreamResponse) (h : responseOk r.status = true)
    (hb : r.body = .empty) :
    fetchFromExternalApi r = .ok { ok := true, status := r.status, json := .jnull } := by
  obtain ⟨s, st, b⟩ := r
  simp only at h hb
  subst hb
  simp [fetchFromExternalApi, h]

theorem fetch_ok_nonJson (r : UpstreamResponse) (t : String)
    (h : responseOk r.status = true) (hb : r.body = .nonJson t) :
    fetchFromExternalApi r
      = .ok { ok := false, status := 502, json := invalidSuccessJson t } := by
  obtain ⟨s, st, b⟩ := r
  simp only at h hb
  subst hb
  simp [fetchFromExternalApi, h]

theorem getField_mkErrBody (m : JVal) (d : Option JVal) :
    getField (mkErrBody m d) "error" = some m := by
  cases d <;> rfl

theorem truthyStr_some {s : String} (h : s ≠ "") : truthyStr (some s) = true := by
  simp only [truthyStr, bne_iff_ne, ne_eq]
  exact h

theorem GET_step2 (u k : String) (up : Upstream) (lr : CallResult)
    (hu : u ≠ "") (hk : k ≠ "")
    (hl : fetchFromExternalApi up.lookup = .ok lr) (hlok : lr.ok = true)
    (hid : truthyO (probeUserId lr.json) = true) :
    GET ⟨some u, some k⟩ up = relationStep up.relations := by
  simp [GET, truthyStr_some hu, truthyStr_some hk, hl, hlok, hid]

theorem filterAllTruthy (xs : List JVal)
    (h : ∀ e ∈ xs, truthyO (probedName e) = true) :
    ((xs.map probedName).filter truthyO).filterMap id
      = xs.map (fun e => (probedName e).getD .jnull) := by
  induction xs with
  | nil => rfl
  | cons a rest ih =>
    have ha : truthyO (probedName a) = true := h a (List.mem_cons_self a rest)
    have hrest := ih (fun e he => h e (List.mem_cons_of_mem a he))
    obtain ⟨v, hv⟩ : ∃ v, probedName a = some v := by
      cases hp : probedName a with
      | none => rw [hp] at ha; simp [truthyO] at ha
      | some v => exact ⟨v, rfl⟩
    simp only [List.map_cons, List.filter_cons, ha, if_true]
    simp [hv, hrest]

-- Shared concrete inputs for witnesses and counterexamples --------------

/-- A successful identity-lookup response carrying `data.id_str`. -/
def wLookup : UpstreamResponse :=
  { status := 200, statusText := "OK",
    body := .json (.jobj [("data", .jobj [("id_str", .jstr "123")])]) }

/-- The call result `fetchFromExternalApi` produces for `wLookup`. -/
def wLookupResult : CallResult :=
  { ok := true, status := 200, json := .jobj [("data", .jobj [("id_str", .jstr "123")])] }

/-- A successful relation-fetch response with the given payload. -/
def relationsWith (v : JVal) : UpstreamResponse :=
  { status := 200, statusText := "OK", body := .json v }

/-- The call result `fetchFromExternalApi` produces for `relationsWith v`. -/
def relationsResult (v : JVal) : CallResult :=
  { ok := true, status := 200, json := v }

def dummyUp : Upstream :=
  { lookup := { status := 200, statusText := "OK", body := .empty },
    relations := { status := 200, statusText := "OK", body := .empty } }

-- C1 -------------------------------------------------------------------

/-- Claim C1: when the identity lookup succeeds (ok result with an
extractable id), and the relation fetch succeeds with a recognized array
of N entries each carrying a truthy `screen_name` or `username` field,
the gateway returns HTTP 200 with body `{ followings: [...] }` listing
exactly those N probed handles in upstream order — no deduplication, no
reordering, no drops. -/
theorem c1_followings_in_order (u k : String) (up : Upstream)
    (lr fr : CallResult) (xs : List JVal)
    (hu : u ≠ "") (hk : k ≠ "")
    (hl : fetchFromExternalApi up.lookup = .ok lr) (hlok : lr.ok = true)
    (hid : truthyO (probeUserId lr.json) = true)
    (hr : fetchFromExternalApi up.relations = .ok fr) (hrok : fr.ok = true)
    (hshape : findUsersArray fr.json = some xs)
    (hall : ∀ e ∈ xs, truthyO (getField e "screen_name") = true
                      ∨ truthyO (getField e "username") = true) :
    (GET ⟨some u, some k⟩ up).response.status = 200 ∧
    (GET ⟨some u, some k⟩ up).response.body
      = .jobj [("followings", .jarr (xs.map (fun e => (probedName e).getD .jnull)))] ∧
    (xs.map (fun e => (probedName e).getD .jnull)).length = xs.length := by
  have hall' : ∀ e ∈ xs, truthyO (probedName e) = true := by
    intro e he
    rw [truthyO_probedName]
    rcases hall e he with h | h <;> simp [h]
  have hnn : ∀ e ∈ xs, e ≠ JVal.jnull := by
    intro e he he'
    subst he'
    rcases hall _ he with h | h <;> simp [getField, truthyO] at h
  have hmap := mapHandleProbe_ok_of_nonnull xs hnn
  have hex : extractedUsernames xs
      = .ok (((xs.map probedName).filter truthyO).filterMap id) := by
    simp [extractedUsernames, hmap]
  have hkeep := filterAllTruthy xs hall'
  rw [GET_step2 u k up lr hu hk hl hlok hid]
  refine ⟨?_, ?_, ?_⟩
  · simp [relationStep, hr, handleFollowings, hrok, hshape, hex]
  · simp [relationStep, hr, handleFollowings, hrok, hshape, hex, hkeep]
  · simp

def c1entries : List JVal :=
  [.jobj [("screen_name", .jstr "bob")], .jobj [("username", .jstr "carol")]]

def c1up : Upstream :=
  { lookup := wLookup, relations := relationsWith (.jobj [("data", .jarr c1entries)]) }

/-- Witness for C1: the spec worked example restricted to the two
extractable entries. -/
theorem c1_followings_in_order_witness :
    (GET ⟨some "alice", some "key"⟩ c1up).response.status = 200 ∧
    (GET ⟨some "alice", some "key"⟩ c1up).response.body
      = .jobj [("followings", .jarr (c1entries.map (fun e => (probedName e).getD .jnull)))] ∧
    (c1entries.map (fun e => (probedName e).getD .jnull)).length = c1entries.length :=
  c1_followings_in_order "alice" "key" c1up wLookupResult
    (relationsResult (.jobj [("data", .jarr c1entries)])) c1entries
    (by decide) (by decide) rfl rfl rfl rfl rfl rfl
    (by
      intro e he
      simp only [c1entries, List.mem_cons, List.not_mem_nil, or_false] at he
      rcases he with rfl | rfl
      · exact Or.inl rfl
      · exact Or.inr rfl)

-- C2 -------------------------------------------------------------------

theorem getField_shapeErrorBody (j : JVal) :
    getField (shapeErrorBody j) "error"
      = some (.jstr "Bad Gateway: Upstream API response for followings list has unexpected structure.") := rfl

theorem getArr_some_jobj (fs : List (String × JVal)) :
    getArr (some (JVal.jobj fs)) = none := rfl

theorem findUsersArray_eq_amendedShapeProbe (d : JVal) :
    findUsersArray d = amendedShapeProbe d := by
  cases d with
  | jobj fs =>
    rcases h1 : getArr (getField (JVal.jobj fs) "data") with _ | xs
    · rcases h2 : getArr (getField (JVal.jobj fs) "users") with _ | ys
      · simp [findUsersArray, amendedShapeProbe, JVal.truthy, h1, h2, getArr_some_jobj]
      · simp [findUsersArray, amendedShapeProbe, JVal.truthy, h1, h2]
    · simp [findUsersArray, amendedShapeProbe, JVal.truthy, h1]
  | jnull => rfl
  | jbool b => simp [findUsersArray, amendedShapeProbe, getField, getArr, JVal.truthy]
  | jnum n => simp [findUsersArray, amendedShapeProbe, getField, getArr, JVal.truthy]
  | jstr s => simp [findUsersArray, amendedShapeProbe, getField, getArr, JVal.truthy]
  | jarr xs => simp [findUsersArray, amendedShapeProbe, getField, getArr, JVal.truthy]

def c2payload : JVal :=
  .jobj [("data", .jobj [("users", .jarr [.jobj [("username", .jstr "bob")]])])]

def c2up : Upstream := { lookup := wLookup, relations := relationsWith c2payload }

/-- Counterexample to C2 as stated: a payload of shape
`{ data: { users: [...] } }` matches the fourth probe of the claimed order,
but the code never probes `payload.data.users`: the extractor recognizes
nothing and the gateway returns 502 instead of the followings. -/
theorem c2_counterexample :
    specShapeProbe c2payload = some [.jobj [("username", .jstr "bob")]] ∧
    findUsersArray c2payload = none ∧
    (GET ⟨some "alice", some "key"⟩ c2up).response.status = 502 :=
  ⟨rfl, rfl, rfl⟩

/-- Claim C2 (amended): the extractor probes, first match winning, only
(1) the payload itself being an array, (2) `payload.data`, (3)
`payload.users` — `payload.data.users` is never probed — and when none of
the three match the gateway returns the 502 schema error. -/
theorem c2_shape_probe (u k : String) (up : Upstream) (lr fr : CallResult)
    (hu : u ≠ "") (hk : k ≠ "")
    (hl : fetchFromExternalApi up.lookup = .ok lr) (hlok : lr.ok = true)
    (hid : truthyO (probeUserId lr.json) = true)
    (hr : fetchFromExternalApi up.relations = .ok fr) (hrok : fr.ok = true) :
    findUsersArray fr.json = amendedShapeProbe fr.json ∧
    (findUsersArray fr.json = none →
      (GET ⟨some u, some k⟩ up).response.status = 502 ∧
      getField (GET ⟨some u, some k⟩ up).response.body "error"
        = some (.jstr "Bad Gateway: Upstream API response for followings list has unexpected structure.")) := by
  refine ⟨findUsersArray_eq_amendedShapeProbe _, fun hn => ?_⟩
  rw [GET_step2 u k up lr hu hk hl hlok hid]
  constructor
  · simp [relationStep, hr, handleFollowings, hrok, hn]
  · simp [relationStep, hr, handleFollowings, hrok, hn, getField_shapeErrorBody]

/-- Witness for the amended C2 at the `data.users` payload. -/
theorem c2_shape_probe_witness :
    (GET ⟨some "alice", some "key"⟩ c2up).response.status = 502 ∧
    getField (GET ⟨some "alice", some "key"⟩ c2up).response.body "error"
      = some (.jstr "Bad Gateway: Upstream API response for followings list has unexpected structure.") :=
  (c2_shape_probe "alice" "key" c2up wLookupResult (relationsResult c2payload)
    (by decide) (by decide) rfl rfl rfl rfl rfl).2 rfl

-- C3 -------------------------------------------------------------------

def c3xup : Upstream :=
  { lookup := { status := 404, statusText := "Not Found",
                body := .json (.jobj [("errors", .jarr [.jnull])]) },
    relations := relationsWith (.jobj [("data", .jarr [])]) }

/-- Counterexample to C3 as stated: an identity-lookup 404 whose body is
`{ errors: [null] }` makes the error classifier throw a `TypeError`
reading `errors[0].message`; the outer catch answers 503, not 404 with
the exact not-found message — though the relation fetch is still never
issued. -/
theorem c3_counterexample :
    (GET ⟨some "ghost", some "key"⟩ c3xup).response.status = 503 ∧
    ¬ (GET ⟨some "ghost", some "key"⟩ c3xup).response.status = 404 ∧
    (GET ⟨some "ghost", some "key"⟩ c3xup).relationsCalled = false :=
  ⟨rfl, by decide, rfl⟩

/-- Claim C3 (amended): when the identity lookup returns HTTP 404 and the
classification of its body completes without throwing, the gateway answers
404 with exactly `User "<handle>" not found.` and never issues the
relation fetch; when the classification throws (a null `errors[0]` reached
by the probe cascade), the request instead fails 503 — and the relation
fetch is still never issued. -/
theorem c3_handle_not_found (u k : String) (up : Upstream)
    (hu : u ≠ "") (hk : k ≠ "") (h404 : up.lookup.status = 404) :
    (∀ lr, fetchFromExternalApi up.lookup = .ok lr →
      (GET ⟨some u, some k⟩ up).response.status = 404 ∧
      getField (GET ⟨some u, some k⟩ up).response.body "error"
        = some (.jstr ("User \"" ++ u ++ "\" not found.")) ∧
      (GET ⟨some u, some k⟩ up).relationsCalled = false) ∧
    (∀ e, fetchFromExternalApi up.lookup = .error e →
      (GET ⟨some u, some k⟩ up).response.status = 503 ∧
      (GET ⟨some u, some k⟩ up).relationsCalled = false) := by
  have hnok : responseOk up.lookup.status = false := by rw [h404]; rfl
  constructor
  · intro lr hf
    obtain ⟨hok, hst⟩ := fetch_ok_not2xx up.lookup lr hnok hf
    have h404' : lr.status = 404 := by rw [hst, h404]
    simp [GET, truthyStr_some hu, truthyStr_some hk, hf, hok, handleLookupFailure, h404',
          getField_mkErrBody]
  · intro e hf
    simp [GET, truthyStr_some hu, truthyStr_some hk, hf, catchResponse]

def c3up : Upstream :=
  { lookup := { status := 404, statusText := "Not Found",
                body := .json (.jobj [("message", .jstr "Not Found")]) },
    relations := relationsWith (.jobj [("data", .jarr [])]) }

/-- Witness for the amended C3: the spec ghost example, whose body the
classifier handles without throwing. -/
theorem c3_handle_not_found_witness :
    (GET ⟨some "ghost", some "key"⟩ c3up).response.status = 404 ∧
    getField (GET ⟨some "ghost", some "key"⟩ c3up).response.body "error"
      = some (.jstr ("User \"" ++ "ghost" ++ "\" not found.")) ∧
    (GET ⟨some "ghost", some "key"⟩ c3up).relationsCalled = false :=
  (c3_handle_not_found "ghost" "key" c3up (by decide) (by decide) rfl).1
    { ok := false, status := 404,
      json := .jobj [("error", .jstr "Not Found"),
                     ("details", .jobj [("message", .jstr "Not Found")])] } rfl

-- C4 -------------------------------------------------------------------

theorem getField_idMissingBody (j : JVal) :
    getField (idMissingBody j) "error"
      = some (.jstr "Bad Gateway: User ID not found in the lookup response from the external API.") := rfl

/-- Claim C4: an ok identity lookup whose payload carries no truthy
identifier at any of `data.id_str`, `id_str`, `data.id`, `id` yields a 502
with the user-id schema error, and the relation fetch is not issued. -/
theorem c4_id_not_found (u k : String) (up : Upstream) (lr : CallResult)
    (hu : u ≠ "") (hk : k ≠ "")
    (hl : fetchFromExternalApi up.lookup = .ok lr) (hlok : lr.ok = true)
    (h1 : truthyO (getField2 lr.json "data" "id_str") = false)
    (h2 : truthyO (getField lr.json "id_str") = false)
    (h3 : truthyO (getField2 lr.json "data" "id") = false)
    (h4 : truthyO (getField lr.json "id") = false) :
    (GET ⟨some u, some k⟩ up).response.status = 502 ∧
    getField (GET ⟨some u, some k⟩ up).response.body "error"
      = some (.jstr "Bad Gateway: User ID not found in the lookup response from the external API.") ∧
    (GET ⟨some u, some k⟩ up).relationsCalled = false := by
  have hid : truthyO (probeUserId lr.json) = false := by
    simp [probeUserId, truthyO_jsOr, h1, h2, h3, h4]
  simp [GET, truthyStr_some hu, truthyStr_some hk, hl, hlok, hid, getField_idMissingBody]

def c4up : Upstream :=
  { lookup := { status := 200, statusText := "OK",
                body := .json (.jobj [("data", .jobj [("name", .jstr "Alice")])]) },
    relations := relationsWith (.jobj [("data", .jarr [])]) }

/-- Witness for C4: an ok lookup whose payload has no id at all. -/
theorem c4_id_not_found_witness :
    (GET ⟨some "alice", some "key"⟩ c4up).response.status = 502 ∧
    getField (GET ⟨some "alice", some "key"⟩ c4up).response.body "error"
      = some (.jstr "Bad Gateway: User ID not found in the lookup response from the external API.") ∧
    (GET ⟨some "alice", some "key"⟩ c4up).relationsCalled = false :=
  c4_id_not_found "alice" "key" c4up
    { ok := true, status := 200, json := .jobj [("data", .jobj [("name", .jstr "Alice")])] }
    (by decide) (by decide) rfl rfl rfl rfl rfl rfl

-- C5 -------------------------------------------------------------------

theorem probeUserId_jnull : truthyO (probeUserId .jnull) = false := rfl

theorem findUsersArray_jnull : findUsersArray .jnull = none := rfl

/-- Claim C5: an upstream call that was actually issued and returned a 2xx
status with an empty or unparsable body never lets the gateway answer 2xx:
the outcome is HTTP 502, for the identity-lookup call and for the
relation-fetch call alike. -/
theorem c5_bad_success_is_502 (u k : String) (up : Upstream)
    (hu : u ≠ "") (hk : k ≠ "") :
    (badSuccess up.lookup = true → (GET ⟨some u, some k⟩ up).response.status = 502) ∧
    ((GET ⟨some u, some k⟩ up).relationsCalled = true → badSuccess up.relations = true →
      (GET ⟨some u, some k⟩ up).response.status = 502) := by
  constructor
  · intro hbad
    simp only [badSuccess, Bool.and_eq_true] at hbad
    obtain ⟨hok2, hun⟩ := hbad
    cases hb : up.lookup.body with
    | empty =>
      have hf := fetch_ok_empty up.lookup hok2 hb
      simp [GET, truthyStr_some hu, truthyStr_some hk, hf, probeUserId_jnull]
    | nonJson t =>
      have hf := fetch_ok_nonJson up.lookup t hok2 hb
      simp [GET, truthyStr_some hu, truthyStr_some hk, hf, handleLookupFailure]
    | json v =>
      rw [hb] at hun
      simp [unusableBody] at hun
  · intro hrel hbad
    simp only [badSuccess, Bool.and_eq_true] at hbad
    obtain ⟨hok2, hun⟩ := hbad
    rcases hfl : fetchFromExternalApi up.lookup with e | lr
    · have hrc : (GET ⟨some u, some k⟩ up).relationsCalled = false := by
        simp [GET, truthyStr_some hu, truthyStr_some hk, hfl]
      rw [hrc] at hrel
      cases hrel
    · by_cases hlok : lr.ok = true
      · by_cases hid : truthyO (probeUserId lr.json) = true
        · rw [GET_step2 u k up lr hu hk hfl hlok hid]
          cases hb : up.relations.body with
          | empty =>
            have hf := fetch_ok_empty up.relations hok2 hb
            simp [relationStep, hf, handleFollowings, findUsersArray_jnull]
          | nonJson t =>
            have hf := fetch_ok_nonJson up.relations t hok2 hb
            simp [relationStep, hf, handleFollowings]
          | json v =>
            rw [hb] at hun
            simp [unusableBody] at hun
        · have hid' : truthyO (probeUserId lr.json) = false := by
            revert hid
            cases truthyO (probeUserId lr.json) <;> simp
          have hrc : (GET ⟨some u, some k⟩ up).relationsCalled = false := by
            simp [GET, truthyStr_some hu, truthyStr_some hk, hfl, hlok, hid']
          rw [hrc] at hrel
          cases hrel
      · have hlok' : lr.ok = false := by
          revert hlok
          cases lr.ok <;> simp
        have hrc : (GET ⟨some u, some k⟩ up).relationsCalled = false := by
          simp [GET, truthyStr_some hu, truthyStr_some hk, hfl, hlok']
        rw [hrc] at hrel
        cases hrel

def c5up : Upstream :=
  { lookup := wLookup,
    relations := { status := 200, statusText := "OK", body := .empty } }

/-- Witness for C5: relation fetch answers 200 with an empty body. -/
theorem c5_bad_success_is_502_witness :
    (GET ⟨some "alice", some "key"⟩ c5up).response.status = 502 :=
  (c5_bad_success_is_502 "alice" "key" c5up (by decide) (by decide)).2 rfl rfl

-- C6 -------------------------------------------------------------------

def c6xup : Upstream :=
  { lookup := wLookup, relations := relationsWith (.jobj [("data", .jarr [.jnull])]) }

/-- Counterexample to C6 as stated: relations 200 with `{ data: [null] }`
is a recognized array shape with zero entries yielding a handle, but the
per-entry probe throws a `TypeError` on the null entry: the gateway
answers 503, not 200 with empty followings. -/
theorem c6_counterexample :
    findUsersArray (.jobj [("data", .jarr [JVal.jnull])]) = some [JVal.jnull] ∧
    (GET ⟨some "alice", some "key"⟩ c6xup).response.status = 503 ∧
    ¬ (GET ⟨some "alice", some "key"⟩ c6xup).response.status = 200 :=
  ⟨rfl, rfl, by decide⟩

/-- Claim C6 (amended): when a relation array is recognized and the
per-entry extraction completes without throwing (no null entry), the
gateway answers HTTP 200 whatever the entries extract to, and zero
extracted handles give `{ followings: [] }`, not an error; when the array
contains a null entry the extraction throws and the request fails 503. -/
theorem c6_zero_handles_ok (u k : String) (up : Upstream)
    (lr fr : CallResult) (xs : List JVal)
    (hu : u ≠ "") (hk : k ≠ "")
    (hl : fetchFromExternalApi up.lookup = .ok lr) (hlok : lr.ok = true)
    (hid : truthyO (probeUserId lr.json) = true)
    (hr : fetchFromExternalApi up.relations = .ok fr) (hrok : fr.ok = true)
    (hshape : findUsersArray fr.json = some xs) :
    (∀ l, extractedUsernames xs = .ok l →
      (GET ⟨some u, some k⟩ up).response.status = 200 ∧
      (l = [] → (GET ⟨some u, some k⟩ up).response.body
        = .jobj [("followings", .jarr ([] : List JVal))])) ∧
    (∀ e, extractedUsernames xs = .error e →
      (GET ⟨some u, some k⟩ up).response.status = 503) := by
  rw [GET_step2 u k up lr hu hk hl hlok hid]
  constructor
  · intro l hex
    constructor
    · simp [relationStep, hr, handleFollowings, hrok, hshape, hex]
    · intro hz
      subst hz
      simp [relationStep, hr, handleFollowings, hrok, hshape, hex]
  · intro e hex
    simp [relationStep, hr, handleFollowings, hrok, hshape, hex, catchResponse]

def c6up : Upstream :=
  { lookup := wLookup,
    relations := relationsWith (.jobj [("data", .jarr [.jobj [("nickname", .jstr "dave")]])]) }

/-- Witness for the amended C6: one non-null entry carrying neither probed
field. -/
theorem c6_zero_handles_ok_witness :
    (GET ⟨some "alice", some "key"⟩ c6up).response.status = 200 ∧
    (([] : List JVal) = [] →
      (GET ⟨some "alice", some "key"⟩ c6up).response.body
        = .jobj [("followings", .jarr ([] : List JVal))]) :=
  (c6_zero_handles_ok "alice" "key" c6up wLookupResult
    (relationsResult (.jobj [("data", .jarr [.jobj [("nickname", .jstr "dave")]])]))
    [.jobj [("nickname", .jstr "dave")]]
    (by decide) (by decide) rfl rfl rfl rfl rfl rfl).1 [] rfl

-- C7 -------------------------------------------------------------------

/-- Counterexample to C7 as stated: a request with no `username` parameter
arriving while the credential is absent is answered 400, not 500 (the
missing-parameter check runs before the credential check). -/
theorem c7_counterexample :
    (GET ⟨none, none⟩ dummyUp).response.status = 400 ∧
    ¬ (GET ⟨none, none⟩ dummyUp).response.status = 500 ∧
    (GET ⟨none, none⟩ dummyUp).lookupCalled = false ∧
    (GET ⟨none, none⟩ dummyUp).relationsCalled = false :=
  ⟨rfl, by decide, rfl, rfl⟩

/-- Claim C7 (amended): for every request carrying a non-empty `username`
parameter, when the upstream credential is absent the gateway responds
HTTP 500 with the configuration error and no upstream call is attempted. -/
theorem c7_missing_credential (u : String) (up : Upstream) (hu : u ≠ "") :
    (GET ⟨some u, none⟩ up).response.status = 500 ∧
    (GET ⟨some u, none⟩ up).response.body = configErrorBody ∧
    (GET ⟨some u, none⟩ up).lookupCalled = false ∧
    (GET ⟨some u, none⟩ up).relationsCalled = false := by
  simp [GET, truthyStr_some hu, truthyStr, hu]

/-- Witness for the amended C7. -/
theorem c7_missing_credential_witness :
    (GET ⟨some "alice", none⟩ dummyUp).response.status = 500 ∧
    (GET ⟨some "alice", none⟩ dummyUp).response.body = configErrorBody ∧
    (GET ⟨some "alice", none⟩ dummyUp).lookupCalled = false ∧
    (GET ⟨some "alice", none⟩ dummyUp).relationsCalled = false :=
  c7_missing_credential "alice" dummyUp (by decide)

-- C8 -------------------------------------------------------------------

theorem externalErrorMessage_eq_amended (v : JVal) (st : String) (s : Nat) :
    externalErrorMessage v st s = amendedErrorProbe v st s := by
  cases v with
  | jobj fs =>
    rcases h1 : strIfNonEmpty (getField (JVal.jobj fs) "message") with _ | m1 <;>
    rcases h2 : strIfNonEmpty (getField (JVal.jobj fs) "error") with _ | m2 <;>
    rcases h3 : strIfNonEmpty (getField (JVal.jobj fs) "error_message") with _ | m3 <;>
    rcases h4 : errorsFirstMessage (JVal.jobj fs) with e4 | (_ | m4) <;>
    rcases h5 : strIfNonEmpty (getField (JVal.jobj fs) "title") with _ | m5 <;>
    rcases h6 : strIfNonEmpty (getField (JVal.jobj fs) "detail") with _ | m6 <;>
      simp [externalErrorMessage, amendedErrorProbe, firstSomeStrE, JVal.truthy,
            h1, h2, h3, h4, h5, h6]
  | jnull => rfl
  | jbool b => cases b <;> rfl
  | jnum n =>
    simp [externalErrorMessage, amendedErrorProbe, firstSomeStrE, getField,
          strIfNonEmpty, errorsFirstMessage, JVal.truthy]
  | jstr s' =>
    simp [externalErrorMessage, amendedErrorProbe, firstSomeStrE, getField,
          strIfNonEmpty, errorsFirstMessage, JVal.truthy]
  | jarr xs => rfl

def c8payload : JVal := .jobj [("error", .jobj [("message", .jstr "boom")])]

def c8throwPayload : JVal := .jobj [("errors", .jarr [.jnull]), ("title", .jstr "T")]

/-- Counterexample to C8 as stated, twice over. For
`{ error: { message: "boom" } }` the claimed probe order yields `boom` via
`error.message`, but the code never probes `error.message` and classifies
the status-text fallback instead. For `{ errors: [null], title: "T" }` the
claimed order yields `T`, but the code throws a `TypeError` reading
`errors[0].message` and never produces a classified message at all. -/
theorem c8_counterexample :
    specErrorMessage c8payload "Internal Server Error" 500 = "boom" ∧
    externalErrorMessage c8payload "Internal Server Error" 500 = .ok "Internal Server Error" ∧
    specErrorMessage c8throwPayload "Internal Server Error" 500 = "T" ∧
    externalErrorMessage c8throwPayload "Internal Server Error" 500
      = .error (nullAccessError "message") :=
  ⟨rfl, rfl, rfl, rfl⟩

/-- Claim C8 (amended): for an upstream result with `ok=false` and a parsed
JSON body, when the classification completes it takes the first non-empty
string among `message`, `error` (if a string), `error_message`,
`errors[0].message`, `title`, `detail` — `error.message` is never probed —
falling back to the HTTP status text or the generic
`External API Error <status>`; when the probe cascade reaches a null
`errors[0]` it throws instead, and the thrown error propagates out of the
call (the request then fails 503). -/
theorem c8_error_message_probe (r : UpstreamResponse) (v : JVal)
    (hb : r.body = .json v) (hnok : responseOk r.status = false) :
    (∀ m, amendedErrorProbe v r.statusText r.status = .ok m →
      fetchFromExternalApi r
        = .ok { ok := false, status := r.status,
                json := .jobj [("error", .jstr m), ("details", v)] }) ∧
    (∀ e, amendedErrorProbe v r.statusText r.status = .error e →
      fetchFromExternalApi r = .error e) := by
  obtain ⟨s, st, b⟩ := r
  simp only at hb hnok
  subst hb
  constructor
  · intro m hm
    have heq := externalErrorMessage_eq_amended v st s
    rw [hm] at heq
    simp [fetchFromExternalApi, hnok, heq]
  · intro e he
    have heq := externalErrorMessage_eq_amended v st s
    rw [he] at heq
    simp [fetchFromExternalApi, hnok, heq]

def c8resp : UpstreamResponse :=
  { status := 500, statusText := "Internal Server Error", body := .json c8payload }

/-- Witness for the amended C8. -/
theorem c8_error_message_probe_witness :
    fetchFromExternalApi c8resp
      = .ok { ok := false, status := 500,
              json := .jobj [("error", .jstr "Internal Server Error"),
                             ("details", c8payload)] } :=
  (c8_error_message_probe c8resp c8payload rfl rfl).1 "Internal Server Error" rfl

-- C9 -------------------------------------------------------------------

def c9up : Upstream :=
  { lookup := wLookup,
    relations := relationsWith (.jobj [("data", .jarr [.jobj [("screen_name", .jnum 42)]])]) }

/-- Counterexample to C9 as stated: an entry whose probed `screen_name` is
the truthy non-string `42` is kept, not dropped — the gateway returns
`{ followings: [42] }` where the claim requires `{ followings: [] }`. -/
theorem c9_counterexample :
    (GET ⟨some "alice", some "key"⟩ c9up).response.status = 200 ∧
    (GET ⟨some "alice", some "key"⟩ c9up).response.body
      = .jobj [("followings", .jarr [.jnum 42])] ∧
    ¬ (GET ⟨some "alice", some "key"⟩ c9up).response.body
      = .jobj [("followings", .jarr ([] : List JVal))] := by
  refine ⟨rfl, rfl, ?_⟩
  intro h
  rw [show (GET ⟨some "alice", some "key"⟩ c9up).response.body
        = .jobj [("followings", .jarr [.jnum 42])] from rfl] at h
  simp at h

theorem filterTruthy_eq_filterMap_kept (xs : List JVal) :
    ((xs.map probedName).filter truthyO).filterMap id = xs.filterMap keptHandle := by
  induction xs with
  | nil => rfl
  | cons a rest ih =>
    rw [List.map_cons, List.filter_cons, List.filterMap_cons]
    by_cases h : truthyO (probedName a) = true
    · obtain ⟨v, hv⟩ : ∃ v, probedName a = some v := by
        cases hp : probedName a with
        | none => rw [hp] at h; simp [truthyO] at h
        | some v => exact ⟨v, rfl⟩
      rw [hv] at h
      have hkept : keptHandle a = some v := by
        simp [keptHandle, hv, h]
      simp [hv, h, hkept, ih]
    · have h' : truthyO (probedName a) = false := by
        revert h
        cases truthyO (probedName a) <;> simp
      have hkept : keptHandle a = none := by
        simp [keptHandle, h']
      simp [h', hkept, ih]

/-- Claim C9 (amended): for a recognized relation array containing no null
entry, each entry is probed at `screen_name` then `username` and the
probed value is kept exactly when it is truthy — whatever its type —
with falsy probes dropped silently; when the array contains a null entry
the probe throws a `TypeError` instead of dropping it, and the extraction
(hence the whole request) fails. -/
theorem c9_truthy_kept (xs : List JVal) :
    (JVal.jnull ∉ xs → extractedUsernames xs = .ok (xs.filterMap keptHandle)) ∧
    (JVal.jnull ∈ xs → extractedUsernames xs = .error (nullAccessError "screen_name")) := by
  constructor
  · intro hnn
    have h' : ∀ e ∈ xs, e ≠ JVal.jnull := by
      intro e he he'
      exact hnn (he' ▸ he)
    have hmap := mapHandleProbe_ok_of_nonnull xs h'
    simp only [extractedUsernames, hmap]
    exact congrArg Except.ok (filterTruthy_eq_filterMap_kept xs)
  · intro hmem
    simp [extractedUsernames, mapHandleProbe_error_of_mem xs hmem]

/-- Witness for the amended C9: a singleton with a truthy non-string probe
is kept. -/
theorem c9_truthy_kept_witness :
    extractedUsernames [JVal.jobj [("screen_name", JVal.jnum 42)]]
      = .ok ([JVal.jobj [("screen_name", JVal.jnum 42)]].filterMap keptHandle) :=
  (c9_truthy_kept [JVal.jobj [("screen_name", JVal.jnum 42)]]).1 (by simp)

-- C10 ------------------------------------------------------------------

/-- Claim C10: on every run that returns a followings list from a
recognized relation array, the list is never longer than that array —
extraction only drops entries. -/
theorem c10_no_new_entries (u k : String) (up : Upstream)
    (lr fr : CallResult) (xs l : List JVal)
    (hu : u ≠ "") (hk : k ≠ "")
    (hl : fetchFromExternalApi up.lookup = .ok lr) (hlok : lr.ok = true)
    (hid : truthyO (probeUserId lr.json) = true)
    (hr : fetchFromExternalApi up.relations = .ok fr) (hrok : fr.ok = true)
    (hshape : findUsersArray fr.json = some xs)
    (hex : extractedUsernames xs = .ok l) :
    (GET ⟨some u, some k⟩ up).response.body = .jobj [("followings", .jarr l)] ∧
    l.length ≤ xs.length := by
  rw [GET_step2 u k up lr hu hk hl hlok hid]
  constructor
  · simp [relationStep, hr, handleFollowings, hrok, hshape, hex]
  · rcases hm : mapHandleProbe xs with e | hs
    · simp [extractedUsernames, hm] at hex
    · simp only [extractedUsernames, hm] at hex
      cases hex
      calc ((hs.filter truthyO).filterMap id).length
          ≤ (hs.filter truthyO).length := List.length_filterMap_le _ _
        _ ≤ hs.length := List.length_filter_le _ _
        _ = xs.length := mapHandleProbe_length xs hs hm

def c10entries : List JVal :=
  [.jobj [("screen_name", .jstr "bob")], .jobj [("nickname", .jstr "dave")]]

def c10up : Upstream :=
  { lookup := wLookup, relations := relationsWith (.jobj [("data", .jarr c10entries)]) }

/-- Witness for C10: two entries, one dropped. -/
theorem c10_no_new_entries_witness :
    (GET ⟨some "alice", some "key"⟩ c10up).response.body
      = .jobj [("followings", .jarr [.jstr "bob"])] ∧
    ([JVal.jstr "bob"] : List JVal).length ≤ c10entries.length :=
  c10_no_new_entries "alice" "key" c10up wLookupResult
    (relationsResult (.jobj [("data", .jarr c10entries)])) c10entries [.jstr "bob"]
    (by decide) (by decide) rfl rfl rfl rfl rfl rfl rfl
